import Mathlib

/-!
Shallow embedding of the `unreal-rc` client transport core.

The definitions below are translated from the TypeScript sources:
* `WebSocketTransport` (connection lifecycle, request buffering, reconnect
  backoff, inbound frame correlation, dispose) — `src/unnamed/part_003`;
* `BatchBuilder.add` and `correlateBatchResponses` —
  `packages/core/src/client.ts`.

Asynchronous events (inbound frame, channel open, channel close, timer
fire, caller submission, dispose) are processed one at a time in the
source (single-threaded event loop), so each handler is embedded as a
pure transition `TransportState → TransportState × List Effect`, where
the effect list records the externally observable actions the handler
performs (settling a caller, writing a frame to the channel, starting or
cancelling a timer, scheduling a reconnect, closing the socket), in the
order the source performs them.

Payload bodies are opaque to the transport (`unknown` in the source);
they are modelled by `Option String` (absent vs. an arbitrary serialized
value).
-/

namespace UnrealRC

/-- HTTP verb enumeration (`HttpVerbSchema` in `types.ts`). -/
inductive HttpVerb where
  | GET | PUT | POST | PATCH | DELETE
deriving DecidableEq, Repr

/-- `WebSocket.readyState` values. -/
inductive SocketReadyState where
  | connecting | opened | closing | closed
deriving DecidableEq, Repr

/-- The `disconnectedBehavior` option: buffer while disconnected, or fail
immediately. -/
inductive DisconnectedBehavior where
  | queue | reject
deriving DecidableEq, Repr

/-- The distinct `TransportRequestError` values the transport produces, one
constructor per construction site in the source (identified by message and
attached data). -/
inductive TransportError where
  /-- "Cannot connect a disposed transport" (`connect` guard). -/
  | connectDisposed
  /-- "WebSocket is disconnected" (`request` under the `reject` policy). -/
  | disconnected
  /-- "WebSocket queue limit reached (max); request rejected". -/
  | queueLimitReached (maxQueueSize : Nat)
  /-- "WebSocket is not connected" (`sendRequest` guard). -/
  | notConnected
  /-- "Failed to send WebSocket request" (`socket.send` threw). -/
  | sendFailed
  /-- "WebSocket request timed out after Nms" (per-call timer fired). -/
  | requestTimedOut (timeoutMs : Nat)
  /-- "Remote request failed [with status c]": non-2xx inbound frame, carrying
  the status code (when finite) and the response body as details. -/
  | remoteFailure (statusCode : Option Int) (details : Option String)
  /-- "WebSocket disconnected before responses were received" (`onClose`). -/
  | disconnectedBeforeResponse
  /-- "Transport disposed" (`dispose`). -/
  | transportDisposed
  /-- "WebSocket is disconnected and auto-reconnect is disabled". -/
  | queueRejectedNoAutoReconnect
deriving DecidableEq, Repr

/-- An `OutboundRequest` record: one logical call. `requestId` is populated at
construction inside `request()`; `timerSet` models whether the per-call
timeout timer has been created (`timer` field, set only by `sendRequest`). -/
structure OutboundRequest where
  requestId : Nat
  verb : HttpVerb
  url : String
  body : Option String
  timeoutMs : Nat
  timerSet : Bool
deriving DecidableEq, Repr

/-- The instance state of a `WebSocketTransport`. `pendingRequests` embeds the
JS `Map<number, OutboundRequest>` as an insertion-ordered association list
keyed by `requestId`; `queuedRequests` is the FIFO outbound buffer.
`connectPromise`, `reconnectTimer` and `pingTimer` record whether the
corresponding handle is live. -/
structure TransportState where
  connectTimeoutMs : Nat
  requestTimeoutMs : Nat
  pingIntervalMs : Nat
  autoReconnect : Bool
  reconnectInitialDelayMs : Nat
  reconnectMaxDelayMs : Nat
  reconnectBackoffFactor : Nat
  disconnectedBehavior : DisconnectedBehavior
  maxQueueSize : Nat
  socket : Option SocketReadyState
  connectPromise : Bool
  reconnectTimer : Bool
  pingTimer : Bool
  reconnectAttempt : Nat
  nextRequestId : Nat
  disposed : Bool
  connectedState : Bool
  pendingRequests : List OutboundRequest
  queuedRequests : List OutboundRequest
deriving DecidableEq, Repr

/-- Externally observable actions of one handler invocation, in source
order. `resolved`/`rejected` are the settlement of a caller's promise. -/
inductive Effect where
  /-- The wire envelope `{RequestId, Url, Verb, Body?}` was written to the
  channel. -/
  | sent (requestId : Nat) (url : String) (verb : HttpVerb) (body : Option String)
  | resolved (requestId : Nat) (body : Option String)
  | rejected (requestId : Nat) (error : TransportError)
  | timerStarted (requestId : Nat) (timeoutMs : Nat)
  | timerCancelled (requestId : Nat)
  | reconnectScheduled (delayMs : Nat)
  | reconnectCancelled
  | pingStarted
  | pingStopped
  | socketClosed
deriving DecidableEq, Repr

/-- JS `Map.set` on an insertion-ordered association list: replace in place
when the key exists, else append. -/
def mapSet (l : List OutboundRequest) (r : OutboundRequest) : List OutboundRequest :=
  match l with
  | [] => [r]
  | x :: xs => if x.requestId = r.requestId then r :: xs else x :: mapSet xs r

/-- JS `Map.get` on the association list. -/
def mapGet (l : List OutboundRequest) (requestId : Nat) : Option OutboundRequest :=
  l.find? (fun r => r.requestId = requestId)

/-- JS `Map.delete` on the association list (removes the entry with the key,
of which `mapSet` maintains at most one). -/
def mapDelete (l : List OutboundRequest) (requestId : Nat) : List OutboundRequest :=
  l.eraseP (fun r => r.requestId = requestId)

/-- `WebSocketTransport.scheduleReconnect`: no-op when auto-reconnect is off,
the transport is disposed, or a reconnect timer is already pending; otherwise
computes `delay = min(initialDelay * backoffFactor ^ attempt, maxDelay)`,
increments the attempt counter, and arms the timer. -/
def scheduleReconnect (st : TransportState) : TransportState × List Effect :=
  if !st.autoReconnect || st.disposed || st.reconnectTimer then
    (st, [])
  else
    let delay :=
      min (st.reconnectInitialDelayMs * st.reconnectBackoffFactor ^ st.reconnectAttempt)
        st.reconnectMaxDelayMs
    ({ st with reconnectAttempt := st.reconnectAttempt + 1, reconnectTimer := true },
      [.reconnectScheduled delay])

/-- `WebSocketTransport.stopPing`. -/
def stopPing (st : TransportState) : TransportState × List Effect :=
  if st.pingTimer then ({ st with pingTimer := false }, [.pingStopped]) else (st, [])

/-- `WebSocketTransport.startPing`: stop any previous timer, then arm the
interval unless `pingIntervalMs <= 0`. -/
def startPing (st : TransportState) : TransportState × List Effect :=
  let p1 := stopPing st
  if p1.1.pingIntervalMs = 0 then p1
  else ({ p1.1 with pingTimer := true }, p1.2 ++ [.pingStarted])

/-- `WebSocketTransport.sendRequest`. `socketOpen` is the value of
`this.socket && this.socket.readyState === WebSocket.OPEN` at the call;
`sendOk` is whether `socket.send` returns normally (its throw path is the
`catch` branch). On success the envelope is written, the per-call timeout
timer is started, and the entry is stored in `pendingRequests`. -/
def sendRequest (socketOpen : Bool) (sendOk : Bool) (st : TransportState)
    (request : OutboundRequest) : TransportState × List Effect :=
  if !socketOpen then
    (st, [.rejected request.requestId .notConnected])
  else if !sendOk then
    (st, [.rejected request.requestId .sendFailed])
  else
    ({ st with pendingRequests := mapSet st.pendingRequests { request with timerSet := true } },
      [.sent request.requestId request.url request.verb request.body,
       .timerStarted request.requestId request.timeoutMs])

/-- `WebSocketTransport.request` (its synchronous transition; the
`void this.connect()` kick-off in the buffering branch starts an asynchronous
attempt whose handlers are the separate transitions below). The request
identifier is taken from `nextRequestId` and the counter incremented before
any connectivity check. -/
def request (st : TransportState) (verb : HttpVerb) (url : String)
    (body : Option String) (timeoutMsOpt : Option Nat) : TransportState × List Effect :=
  let timeoutMs := timeoutMsOpt.getD st.requestTimeoutMs
  let requestId := st.nextRequestId
  let st1 := { st with nextRequestId := st.nextRequestId + 1 }
  let outbound : OutboundRequest :=
    { requestId := requestId, verb := verb, url := url, body := body,
      timeoutMs := timeoutMs, timerSet := false }
  if st1.connectedState && st1.socket = some .opened then
    sendRequest (st1.socket = some .opened) true st1 outbound
  else if st1.disconnectedBehavior = .reject then
    (st1, [.rejected requestId .disconnected])
  else if st1.maxQueueSize ≤ st1.queuedRequests.length then
    (st1, [.rejected requestId (.queueLimitReached st1.maxQueueSize)])
  else
    ({ st1 with queuedRequests := st1.queuedRequests ++ [outbound] }, [])

/-- `WebSocketTransport.rejectPendingRequests`: settle every live pending
entry with the given error (cancelling its timeout timer when one was set)
and clear the map. -/
def rejectPendingRequests (st : TransportState) (error : TransportError) :
    TransportState × List Effect :=
  ({ st with pendingRequests := [] },
    (st.pendingRequests.map (fun r =>
      (if r.timerSet then [Effect.timerCancelled r.requestId] else []) ++
        [Effect.rejected r.requestId error])).flatten)

/-- `WebSocketTransport.rejectQueuedRequests`: drain the outbound buffer,
rejecting each buffered call with the given error, in FIFO order. -/
def rejectQueuedRequests (st : TransportState) (error : TransportError) :
    TransportState × List Effect :=
  ({ st with queuedRequests := [] },
    st.queuedRequests.map (fun r => Effect.rejected r.requestId error))

/-- Loop body of `WebSocketTransport.flushQueuedRequests`, structurally
recursive on the drained buffer. `conn k` is the value of
`this.connectedState && this.socket && this.socket.readyState === OPEN`
observed at iteration `k` (asynchronous close events may flip it between
sends); `sendOk k` is whether the `k`-th `socket.send` returns normally. When
the channel is unavailable the current entry is pushed back to the front of
the buffer and the loop stops. -/
def flushGo (conn sendOk : Nat → Bool) (k : Nat) (queue : List OutboundRequest)
    (st : TransportState) : TransportState × List Effect :=
  match queue with
  | [] => (st, [])
  | next :: rest =>
    if conn k then
      let p1 := sendRequest (conn k) (sendOk k) st next
      let p2 := flushGo conn sendOk (k + 1) rest p1.1
      (p2.1, p1.2 ++ p2.2)
    else
      ({ st with queuedRequests := next :: rest }, [])

/-- `WebSocketTransport.flushQueuedRequests`: send the buffered calls in FIFO
order while the channel stays available; the unflushed remainder stays
buffered. -/
def flushQueuedRequests (conn sendOk : Nat → Bool) (st : TransportState) :
    TransportState × List Effect :=
  flushGo conn sendOk 0 st.queuedRequests { st with queuedRequests := [] }

/-- The `onOpen` handler of a successful connect attempt: attach the socket,
mark connected, reset the backoff attempt counter, start the heartbeat, and
flush the outbound buffer (during which the channel is open and sends
succeed, synchronously). The resolved connect promise is cleared by the
`finally` step. -/
def onOpen (st : TransportState) : TransportState × List Effect :=
  let st1 := { st with socket := some .opened, connectedState := true,
                       reconnectAttempt := 0, connectPromise := false }
  let p1 := startPing st1
  let p2 := flushQueuedRequests (fun _ => true) (fun _ => true) p1.1
  (p2.1, p1.2 ++ p2.2)

/-- The `onClose` handler for an established socket: mark disconnected, stop
the heartbeat, detach and drop the socket, reject every pending call with a
disconnect error, and (unless disposed) schedule a reconnect. The outbound
buffer is left untouched. -/
def onClose (st : TransportState) : TransportState × List Effect :=
  let st1 := { st with connectedState := false }
  let p1 := stopPing st1
  let st3 := { p1.1 with socket := none }
  let p2 := rejectPendingRequests st3 .disconnectedBeforeResponse
  if p2.1.disposed then (p2.1, p1.2 ++ p2.2)
  else
    let p3 := scheduleReconnect p2.1
    (p3.1, p1.2 ++ p2.2 ++ p3.2)

/-- Parsed inbound frame as `onMessage` sees it after JSON parsing and
numeric coercion: `requestId`/`responseCode` are `none` when the field is
absent or does not coerce to a finite number. -/
structure InboundFrame where
  requestId : Option Nat
  responseCode : Option Int
  responseBody : Option String
deriving DecidableEq, Repr

/-- The `onMessage` handler: drop frames with no finite `RequestId` or no
matching live pending entry; otherwise remove the entry, cancel its timeout
timer, and settle it — success with the body for a finite 2xx
`ResponseCode`, failure carrying the status (when finite) and the body as
details otherwise. -/
def onMessage (st : TransportState) (frame : InboundFrame) : TransportState × List Effect :=
  match frame.requestId with
  | none => (st, [])
  | some requestId =>
    match mapGet st.pendingRequests requestId with
    | none => (st, [])
    | some pending =>
      let st1 := { st with pendingRequests := mapDelete st.pendingRequests requestId }
      let cancel := if pending.timerSet then [Effect.timerCancelled requestId] else []
      match frame.responseCode with
      | some code =>
        if 200 ≤ code ∧ code < 300 then
          (st1, cancel ++ [.resolved requestId frame.responseBody])
        else
          (st1, cancel ++ [.rejected requestId (.remoteFailure (some code) frame.responseBody)])
      | none =>
        (st1, cancel ++ [.rejected requestId (.remoteFailure none frame.responseBody)])

/-- `WebSocketTransport.dispose`: mark disposed and disconnected, stop the
heartbeat, cancel any pending reconnect timer, reject all pending then all
buffered calls with a disposal error, and detach and close the socket (the
close frame is sent only when the socket is open or still connecting). -/
def dispose (st : TransportState) : TransportState × List Effect :=
  let st1 := { st with disposed := true, connectedState := false }
  let p1 := stopPing st1
  let p2 :=
    if p1.1.reconnectTimer then
      ({ p1.1 with reconnectTimer := false }, [Effect.reconnectCancelled])
    else (p1.1, [])
  let p3 := rejectPendingRequests p2.1 .transportDisposed
  let p4 := rejectQueuedRequests p3.1 .transportDisposed
  match p4.1.socket with
  | none => (p4.1, p1.2 ++ p2.2 ++ p3.2 ++ p4.2)
  | some readyState =>
    let e5 :=
      if readyState = .opened ∨ readyState = .connecting then [Effect.socketClosed] else []
    ({ p4.1 with socket := none }, p1.2 ++ p2.2 ++ p3.2 ++ p4.2 ++ e5)

/-- Outcome of a `connect()` invocation, one constructor per return path of
the guard section. -/
inductive ConnectOutcome where
  /-- Threw "Cannot connect a disposed transport". -/
  | threwDisposed
  /-- Already connected: immediate no-op success. -/
  | alreadyConnected
  /-- An attempt is already in flight: callers share its outcome. -/
  | joinedInFlight
  /-- A fresh attempt was started (its completion is delivered by the
  `onOpen` / failure handlers). -/
  | started
deriving DecidableEq, Repr

/-- The synchronous guard section of `WebSocketTransport.connect`: throws on
a disposed transport, no-ops when connected, joins an in-flight attempt,
otherwise records a fresh attempt (a new socket in the `connecting` state and
a live connect promise). -/
def connect (st : TransportState) : ConnectOutcome × TransportState :=
  if st.disposed then (.threwDisposed, st)
  else if st.connectedState then (.alreadyConnected, st)
  else if st.connectPromise then (.joinedInFlight, st)
  else (.started, { st with connectPromise := true })

/-- One failed/timed-out/aborted reconnect attempt cycle, as driven by the
source: the failure handler calls `scheduleReconnect` (which computes the
delay from the current attempt counter, then increments it and arms the
timer), and when the timer later fires its callback clears `reconnectTimer`
before retrying. Returns the state after the timer fired together with the
scheduled delay (`none` when nothing was scheduled). -/
def oneFailedAttempt (st : TransportState) : TransportState × Option Nat :=
  let p1 := scheduleReconnect st
  match p1.2 with
  | [Effect.reconnectScheduled delay] => ({ p1.1 with reconnectTimer := false }, some delay)
  | _ => (p1.1, none)

/-- The delays scheduled across `n` consecutive failed attempts starting from
`st`. -/
def failedAttemptDelays (st : TransportState) : Nat → List Nat
  | 0 => []
  | n + 1 =>
    match oneFailedAttempt st with
    | (st1, some delay) => delay :: failedAttemptDelays st1 n
    | (_, none) => []

/-- The state of a freshly constructed `WebSocketTransport` with every
option left at its default (`DEFAULT_*` constants in the source):
`nextRequestId` starts at 1, auto-reconnect on, `queue` behavior with
capacity 500, backoff 250ms doubling up to 5000ms. -/
def defaultOptionsState : TransportState where
  connectTimeoutMs := 7000
  requestTimeoutMs := 15000
  pingIntervalMs := 25000
  autoReconnect := true
  reconnectInitialDelayMs := 250
  reconnectMaxDelayMs := 5000
  reconnectBackoffFactor := 2
  disconnectedBehavior := .queue
  maxQueueSize := 500
  socket := none
  connectPromise := false
  reconnectTimer := false
  pingTimer := false
  reconnectAttempt := 0
  nextRequestId := 1
  disposed := false
  connectedState := false
  pendingRequests := []
  queuedRequests := []

/-! ## Batch correlator (`client.ts`) -/

/-- One entry of the outgoing batch request list (`BatchRequestItemSchema`):
`RequestId` is the batch-local sequential id. -/
structure BatchRequestItem where
  RequestId : Nat
  URL : String
  Verb : HttpVerb
  Body : Option String
deriving DecidableEq, Repr

/-- One entry of the server's batch response array
(`BatchResponseItemSchema`). -/
structure BatchResponseItem where
  RequestId : Nat
  ResponseCode : Int
  ResponseBody : Option String
deriving DecidableEq, Repr

/-- One correlated per-sub-call result (`BatchResult`). -/
structure BatchResult where
  requestId : Nat
  statusCode : Int
  body : Option String
  request : BatchRequestItem
deriving DecidableEq, Repr

/-- The `BatchBuilder`'s private `requests` list. -/
structure BatchBuilder where
  requests : List BatchRequestItem
deriving DecidableEq, Repr

/-- A fresh `new BatchBuilder()`. -/
def BatchBuilder.empty : BatchBuilder := ⟨[]⟩

/-- `BatchBuilder.add`: the sequential id is the current length of the
requests list; the new entry is appended and the id returned. (The typed
convenience methods `call` / `getProperty` / … all funnel into `add` after
shape-validating their body.) -/
def BatchBuilder.add (b : BatchBuilder) (verb : HttpVerb) (url : String)
    (body : Option String) : BatchBuilder × Nat :=
  let requestId := b.requests.length
  (⟨b.requests ++ [{ RequestId := requestId, URL := url, Verb := verb, Body := body }]⟩,
    requestId)

/-- The verb/url/body triple one `add` call supplies. -/
structure BatchCall where
  verb : HttpVerb
  url : String
  body : Option String
deriving DecidableEq, Repr

/-- A sequence of `add` calls against a builder, in order. -/
def BatchBuilder.addMany (b : BatchBuilder) (calls : List BatchCall) : BatchBuilder :=
  calls.foldl (fun acc c => (acc.add c.verb c.url c.body).1) b

/-- JS `Map.set` for the response index built by `correlateBatchResponses`:
replace in place on an existing key, else append. -/
def respMapSet (l : List BatchResponseItem) (r : BatchResponseItem) :
    List BatchResponseItem :=
  match l with
  | [] => [r]
  | x :: xs => if x.RequestId = r.RequestId then r :: xs else x :: respMapSet xs r

/-- JS `Map.get` for the response index. -/
def respMapGet (l : List BatchResponseItem) (requestId : Nat) : Option BatchResponseItem :=
  l.find? (fun r => r.RequestId = requestId)

/-- `correlateBatchResponses`: index the response array (`Responses ?? []`)
by `RequestId` (later duplicates overwrite earlier ones, as `Map.set` does),
then map every original sub-request to its matched entry's
`ResponseCode`/`ResponseBody`, defaulting an unmatched sub-request to status
`0` and an absent body. -/
def correlateBatchResponses (requests : List BatchRequestItem)
    (responses : Option (List BatchResponseItem)) : List BatchResult :=
  let byRequestId := (responses.getD []).foldl respMapSet []
  requests.map fun request =>
    match respMapGet byRequestId request.RequestId with
    | some matched =>
      { requestId := request.RequestId, statusCode := matched.ResponseCode,
        body := matched.ResponseBody, request := request }
    | none =>
      { requestId := request.RequestId, statusCode := 0, body := none, request := request }

/-! ## Example states (used as witness inputs) -/

/-- A pending call entry as `sendRequest` stores it (timeout timer armed). -/
def examplePending : OutboundRequest :=
  { requestId := 1, verb := .GET, url := "/remote/info", body := none,
    timeoutMs := 15000, timerSet := true }

/-- A transport with an open channel, a running heartbeat and one pending
call. -/
def exampleOpenState : TransportState :=
  { defaultOptionsState with
    connectedState := true, socket := some .opened, pingTimer := true,
    nextRequestId := 2, pendingRequests := [examplePending] }

/-- A buffered (not yet sent) call entry. -/
def exampleQueuedA : OutboundRequest :=
  { requestId := 1, verb := .PUT, url := "/remote/object/call", body := some "a",
    timeoutMs := 15000, timerSet := false }

/-- A second buffered call entry. -/
def exampleQueuedB : OutboundRequest :=
  { requestId := 2, verb := .GET, url := "/remote/info", body := none,
    timeoutMs := 15000, timerSet := false }

/-- A disconnected transport whose outbound buffer is at capacity 2. -/
def exampleFullState : TransportState :=
  { defaultOptionsState with
    maxQueueSize := 2, nextRequestId := 3,
    queuedRequests := [exampleQueuedA, exampleQueuedB] }

/-- A disconnected transport holding two buffered calls below capacity. -/
def exampleQueuedState : TransportState :=
  { defaultOptionsState with
    nextRequestId := 3, queuedRequests := [exampleQueuedA, exampleQueuedB] }

/-! ## Theorems -/

/-- C1: the spec says the wire identifier is assigned only at send time, so a
call buffered while disconnected should not hold one before it is written to
the channel. On the default (disconnected, `queue` policy) state, a single
submission writes nothing to the channel — no effect at all is produced —
yet the buffered entry already carries wire identifier 1 and the identifier
counter has already advanced to 2: the identifier is consumed at submission
time. -/
theorem C1_counterexample :
    (request defaultOptionsState .GET "/remote/info" none none).2 = [] ∧
    (request defaultOptionsState .GET "/remote/info" none none).1.queuedRequests.map
      (fun r => r.requestId) = [1] ∧
    (request defaultOptionsState .GET "/remote/info" none none).1.nextRequestId = 2 :=
  ⟨rfl, rfl, rfl⟩

/-- C1 (amended): the wire identifier is assigned at submission time — a call
submitted while the channel is not open under the `queue` policy is buffered
already carrying the identifier `nextRequestId`, which is incremented at
submission; when the buffered call is later written to the channel, the
envelope carries that same submission-time identifier. -/
theorem C1_amended (st : TransportState) (verb : HttpVerb) (url : String)
    (body : Option String) (timeoutMsOpt : Option Nat)
    (hconn : st.connectedState = false)
    (hq : st.disconnectedBehavior = .queue)
    (hroom : st.queuedRequests.length < st.maxQueueSize) :
    (request st verb url body timeoutMsOpt).1.queuedRequests.map (fun r => r.requestId) =
      st.queuedRequests.map (fun r => r.requestId) ++ [st.nextRequestId] ∧
    (request st verb url body timeoutMsOpt).1.nextRequestId = st.nextRequestId + 1 ∧
    (request st verb url body timeoutMsOpt).2 = [] ∧
    ∀ st2 : TransportState, ∀ r : OutboundRequest,
      (sendRequest true true st2 r).2 =
        [Effect.sent r.requestId r.url r.verb r.body,
         Effect.timerStarted r.requestId r.timeoutMs] := by
  have hnotin : ¬ st.maxQueueSize ≤ st.queuedRequests.length := Nat.not_le.mpr hroom
  refine ⟨?_, ?_, ?_, ?_⟩ <;>
    simp [request, sendRequest, hconn, hq, hnotin]

/-- C1 witness: the amended statement evaluated on the two-call buffered
state. -/
theorem C1_amended_witness :
    (request exampleQueuedState .GET "/remote/info" none none).1.queuedRequests.map
      (fun r => r.requestId) =
      exampleQueuedState.queuedRequests.map (fun r => r.requestId) ++ [3] ∧
    (request exampleQueuedState .GET "/remote/info" none none).1.nextRequestId = 4 :=
  have h := C1_amended exampleQueuedState .GET "/remote/info" none none rfl rfl
    (by decide)
  ⟨h.1, h.2.1⟩

/-- C3: with the channel not open, the `queue` policy, and `N = maxQueueSize`
calls already buffered, one more submission is rejected immediately (its
rejection with the capacity error is the only effect) and the buffered calls
and pending map are left completely unchanged. -/
theorem C3_theorem (st : TransportState) (verb : HttpVerb) (url : String)
    (body : Option String) (timeoutMsOpt : Option Nat)
    (hconn : st.connectedState = false)
    (hq : st.disconnectedBehavior = .queue)
    (hfull : st.queuedRequests.length = st.maxQueueSize) :
    (request st verb url body timeoutMsOpt).2 =
      [Effect.rejected st.nextRequestId (TransportError.queueLimitReached st.maxQueueSize)] ∧
    (request st verb url body timeoutMsOpt).1.queuedRequests = st.queuedRequests ∧
    (request st verb url body timeoutMsOpt).1.pendingRequests = st.pendingRequests := by
  have hle : st.maxQueueSize ≤ st.queuedRequests.length := Nat.le_of_eq hfull.symm
  refine ⟨?_, ?_, ?_⟩ <;> simp [request, hconn, hq, hle]

/-- C3 witness: the capacity-2 buffered state rejects the third call and
keeps both buffered entries. -/
theorem C3_witness :
    (request exampleFullState .GET "/remote/info" none none).2 =
      [Effect.rejected 3 (TransportError.queueLimitReached 2)] ∧
    (request exampleFullState .GET "/remote/info" none none).1.queuedRequests =
      [exampleQueuedA, exampleQueuedB] := by
  have h := C3_theorem exampleFullState .GET "/remote/info" none none rfl rfl (by decide)
  exact ⟨h.1, h.2.1⟩

/-- C6: an inbound frame whose identifier is absent, non-numeric, or has no
live pending entry is dropped silently: the handler produces no effect and
returns the state entirely unchanged. -/
theorem C6_theorem (st : TransportState) (frame : InboundFrame)
    (h : ∀ requestId, frame.requestId = some requestId →
      mapGet st.pendingRequests requestId = none) :
    onMessage st frame = (st, []) := by
  unfold onMessage
  cases hr : frame.requestId with
  | none => rfl
  | some requestId => simp only [h requestId hr]

/-- C6 witness: a frame for unknown identifier 9 against the open state with
one pending call changes nothing. -/
theorem C6_witness :
    onMessage exampleOpenState
      { requestId := some 9, responseCode := some 200, responseBody := some "ok" } =
      (exampleOpenState, []) :=
  C6_theorem exampleOpenState _ (by decide)

/-- C5: for an inbound frame whose identifier matches a live pending call and
that carries a finite status code, a code in the 200–299 range settles the
call successfully with the frame's body; any other code settles it as a
failure carrying that status code and the body as error detail. In both
cases the entry leaves the pending map and its timeout timer is cancelled. -/
theorem C5_theorem (st : TransportState) (frame : InboundFrame) (requestId : Nat)
    (pending : OutboundRequest) (code : Int)
    (hrid : frame.requestId = some requestId)
    (hpend : mapGet st.pendingRequests requestId = some pending)
    (hcode : frame.responseCode = some code) :
    (200 ≤ code ∧ code < 300 →
      (onMessage st frame).2 =
        (if pending.timerSet then [Effect.timerCancelled requestId] else []) ++
          [Effect.resolved requestId frame.responseBody]) ∧
    (¬(200 ≤ code ∧ code < 300) →
      (onMessage st frame).2 =
        (if pending.timerSet then [Effect.timerCancelled requestId] else []) ++
          [Effect.rejected requestId
            (TransportError.remoteFailure (some code) frame.responseBody)]) ∧
    (onMessage st frame).1.pendingRequests = mapDelete st.pendingRequests requestId := by
  unfold onMessage
  rw [hrid]
  simp only [hpend, hcode]
  refine ⟨fun h2xx => ?_, fun hother => ?_, ?_⟩
  · rw [if_pos h2xx]
  · rw [if_neg hother]
  · split <;> rfl

/-- C5 witness: against the open state with pending call 1, a status-200
frame resolves it with the body and a status-404 frame rejects it with that
status and the body as detail. -/
theorem C5_witness :
    (onMessage exampleOpenState
      { requestId := some 1, responseCode := some 200, responseBody := some "ok" }).2 =
      [Effect.timerCancelled 1, Effect.resolved 1 (some "ok")] ∧
    (onMessage exampleOpenState
      { requestId := some 1, responseCode := some 404, responseBody := some "no" }).2 =
      [Effect.timerCancelled 1,
       Effect.rejected 1 (TransportError.remoteFailure (some 404) (some "no"))] := by
  constructor
  · exact (C5_theorem exampleOpenState _ 1 examplePending 200 rfl rfl rfl).1 (by decide)
  · exact ((C5_theorem exampleOpenState _ 1 examplePending 404 rfl rfl rfl).2.1) (by decide)

/-- The state `dispose` leaves behind: disposed and disconnected, both
timers stopped, socket detached, pending map and outbound buffer empty;
every other field untouched. -/
theorem dispose_fst (st : TransportState) :
    (dispose st).1 = { st with
      disposed := true, connectedState := false,
      pingTimer := false, reconnectTimer := false, socket := none,
      pendingRequests := [], queuedRequests := [] } := by
  cases hp : st.pingTimer <;> cases hr : st.reconnectTimer <;> cases hs : st.socket <;>
    simp [dispose, stopPing, rejectPendingRequests, rejectQueuedRequests, hp, hr, hs]

/-- The effects `dispose` produces, in source order: heartbeat stop,
reconnect-timer cancellation, one timer-cancel (when armed) and one disposal
rejection per pending entry, one disposal rejection per buffered entry, then
the close frame when the socket was open or connecting. -/
theorem dispose_snd (st : TransportState) :
    (dispose st).2 =
      (if st.pingTimer then [Effect.pingStopped] else []) ++
      (if st.reconnectTimer then [Effect.reconnectCancelled] else []) ++
      ((st.pendingRequests.map (fun r =>
        (if r.timerSet then [Effect.timerCancelled r.requestId] else []) ++
          [Effect.rejected r.requestId TransportError.transportDisposed])).flatten) ++
      (st.queuedRequests.map (fun r =>
        Effect.rejected r.requestId TransportError.transportDisposed)) ++
      (match st.socket with
       | none => []
       | some readyState =>
         if readyState = SocketReadyState.opened ∨ readyState = SocketReadyState.connecting
         then [Effect.socketClosed] else []) := by
  cases hp : st.pingTimer <;> cases hr : st.reconnectTimer <;> cases hs : st.socket <;>
    simp [dispose, stopPing, rejectPendingRequests, rejectQueuedRequests, hp, hr, hs]

/-- C10: after `dispose()`, the transport is marked disposed and
disconnected, and a subsequent `connect()` hits the disposed guard: it
throws the transport error ("Cannot connect a disposed transport") without
touching the state, so the connection state remains disconnected. -/
theorem C10_theorem (st : TransportState) :
    (dispose st).1.disposed = true ∧
    connect (dispose st).1 = (ConnectOutcome.threwDisposed, (dispose st).1) ∧
    (dispose st).1.connectedState = false ∧
    (connect (dispose st).1).2.connectedState = false := by
  have hd : (dispose st).1.disposed = true := by rw [dispose_fst]
  have hc : (dispose st).1.connectedState = false := by rw [dispose_fst]
  have hcn : connect (dispose st).1 = (ConnectOutcome.threwDisposed, (dispose st).1) := by
    unfold connect
    rw [if_pos hd]
  exact ⟨hd, hcn, hc, by rw [hcn]; exact hc⟩

/-- Whether an effect is the failure settlement of a caller. -/
def Effect.isRejected : Effect → Bool
  | .rejected _ _ => true
  | _ => false

/-- Filtering the per-entry rejection chunks (optional timer cancel followed
by the rejection) keeps exactly one rejection per entry, in order. -/
theorem filter_isRejected_rejectChunks (l : List OutboundRequest) (e : TransportError) :
    ((l.map (fun r =>
      (if r.timerSet then [Effect.timerCancelled r.requestId] else []) ++
        [Effect.rejected r.requestId e])).flatten).filter Effect.isRejected =
      l.map (fun r => Effect.rejected r.requestId e) := by
  induction l with
  | nil => rfl
  | cons r rest ih =>
    cases ht : r.timerSet <;>
      simp [List.filter_append, ih, Effect.isRejected, ht]

/-- A list made only of rejections is untouched by the rejection filter. -/
theorem filter_isRejected_map_rejected (l : List OutboundRequest) (e : TransportError) :
    (l.map (fun r => Effect.rejected r.requestId e)).filter Effect.isRejected =
      l.map (fun r => Effect.rejected r.requestId e) := by
  induction l with
  | nil => rfl
  | cons r rest ih => simp [Effect.isRejected, ih]

/-- Every entry whose timeout timer is armed gets a timer-cancel effect in
its rejection chunk. -/
theorem timerCancelled_mem_rejectChunks (l : List OutboundRequest) (e : TransportError)
    (r : OutboundRequest) (hr : r ∈ l) (ht : r.timerSet = true) :
    Effect.timerCancelled r.requestId ∈
      (l.map (fun x =>
        (if x.timerSet then [Effect.timerCancelled x.requestId] else []) ++
          [Effect.rejected x.requestId e])).flatten := by
  induction l with
  | nil => cases hr
  | cons x rest ih =>
    rcases List.mem_cons.mp hr with h | h
    · subst h; simp [ht]
    · simp [ih h]

/-- C7: `dispose()` settles every pending and every buffered call exactly
once with the disposal error — the rejection effects are exactly one per
pending entry then one per buffered entry, in order — cancels any pending
reconnect timer, stops the heartbeat, detaches the channel, and empties both
the pending map and the buffer; and it is idempotent: a second `dispose()`
returns the same state and produces no effect at all. -/
theorem C7_theorem (st : TransportState) :
    (dispose st).2.filter Effect.isRejected =
      (st.pendingRequests ++ st.queuedRequests).map
        (fun r => Effect.rejected r.requestId TransportError.transportDisposed) ∧
    (dispose st).1.reconnectTimer = false ∧
    (dispose st).1.pingTimer = false ∧
    (dispose st).1.socket = none ∧
    (dispose st).1.pendingRequests = [] ∧
    (dispose st).1.queuedRequests = [] ∧
    dispose (dispose st).1 = ((dispose st).1, []) := by
  refine ⟨?_, by rw [dispose_fst], by rw [dispose_fst], by rw [dispose_fst],
    by rw [dispose_fst], by rw [dispose_fst], ?_⟩
  · rw [dispose_snd]
    rw [List.filter_append, List.filter_append, List.filter_append, List.filter_append]
    rw [filter_isRejected_rejectChunks, filter_isRejected_map_rejected]
    have hfp : (if st.pingTimer then [Effect.pingStopped] else []).filter
        Effect.isRejected = [] := by
      cases hp : st.pingTimer <;> simp [hp, Effect.isRejected]
    have hfr : (if st.reconnectTimer then [Effect.reconnectCancelled] else []).filter
        Effect.isRejected = [] := by
      cases hr : st.reconnectTimer <;> simp [hr, Effect.isRejected]
    have hfs : (match st.socket with
        | none => ([] : List Effect)
        | some readyState =>
          if readyState = SocketReadyState.opened ∨ readyState = SocketReadyState.connecting
          then [Effect.socketClosed] else []).filter Effect.isRejected = [] := by
      cases hs : st.socket with
      | none => rfl
      | some readyState => dsimp only; split <;> rfl
    rw [hfp, hfr, hfs]
    simp
  · rw [dispose_fst st]
    apply Prod.ext
    · rw [dispose_fst]
    · rw [dispose_snd]; simp

/-- The state `onClose` leaves behind: disconnected, heartbeat stopped,
socket detached, pending map empty, outbound buffer untouched; the backoff
attempt counter advances and the reconnect timer is armed exactly when
`scheduleReconnect` fires (auto-reconnect on, not disposed, no timer already
pending). -/
theorem onClose_fst (st : TransportState) :
    (onClose st).1 = { st with
      connectedState := false, pingTimer := false, socket := none,
      pendingRequests := [],
      reconnectAttempt :=
        if st.autoReconnect = true ∧ st.disposed = false ∧ st.reconnectTimer = false
        then st.reconnectAttempt + 1 else st.reconnectAttempt,
      reconnectTimer :=
        if st.autoReconnect = true ∧ st.disposed = false ∧ st.reconnectTimer = false
        then true else st.reconnectTimer } := by
  cases hp : st.pingTimer <;> cases hd : st.disposed <;> cases ha : st.autoReconnect <;>
    cases hr : st.reconnectTimer <;>
      simp [onClose, stopPing, rejectPendingRequests, scheduleReconnect, hp, hd, ha, hr]

/-- The effects `onClose` produces, in source order: heartbeat stop, one
timer-cancel (when armed) and one disconnect rejection per pending entry,
then the reconnect scheduling with the backoff delay when it fires. -/
theorem onClose_snd (st : TransportState) :
    (onClose st).2 =
      (if st.pingTimer then [Effect.pingStopped] else []) ++
      ((st.pendingRequests.map (fun r =>
        (if r.timerSet then [Effect.timerCancelled r.requestId] else []) ++
          [Effect.rejected r.requestId TransportError.disconnectedBeforeResponse])).flatten) ++
      (if st.autoReconnect = true ∧ st.disposed = false ∧ st.reconnectTimer = false
       then [Effect.reconnectScheduled
         (min (st.reconnectInitialDelayMs * st.reconnectBackoffFactor ^ st.reconnectAttempt)
           st.reconnectMaxDelayMs)]
       else []) := by
  cases hp : st.pingTimer <;> cases hd : st.disposed <;> cases ha : st.autoReconnect <;>
    cases hr : st.reconnectTimer <;>
      simp [onClose, stopPing, rejectPendingRequests, scheduleReconnect, hp, hd, ha, hr]

/-- C9: on channel closure, the transport leaves the open state (connected
flag cleared, socket detached), the heartbeat is stopped, every pending
(sent but unsettled) call is rejected with the disconnect error — exactly
one rejection per pending entry and no other rejection, with each armed
timeout timer cancelled — the buffered (not yet sent) calls are not rejected
and stay buffered unchanged, and when auto-reconnect is on, the transport is
not disposed and no reconnect timer is already pending, a reconnect is
scheduled with the backoff delay. -/
theorem C9_theorem (st : TransportState) :
    (onClose st).1.connectedState = false ∧
    (onClose st).1.pingTimer = false ∧
    (onClose st).1.socket = none ∧
    (onClose st).1.pendingRequests = [] ∧
    (onClose st).1.queuedRequests = st.queuedRequests ∧
    (onClose st).2.filter Effect.isRejected =
      st.pendingRequests.map (fun r =>
        Effect.rejected r.requestId TransportError.disconnectedBeforeResponse) ∧
    (∀ r ∈ st.pendingRequests, r.timerSet = true →
      Effect.timerCancelled r.requestId ∈ (onClose st).2) ∧
    (st.autoReconnect = true → st.disposed = false → st.reconnectTimer = false →
      Effect.reconnectScheduled
        (min (st.reconnectInitialDelayMs * st.reconnectBackoffFactor ^ st.reconnectAttempt)
          st.reconnectMaxDelayMs) ∈ (onClose st).2 ∧
      (onClose st).1.reconnectTimer = true) := by
  refine ⟨by rw [onClose_fst], by rw [onClose_fst], by rw [onClose_fst],
    by rw [onClose_fst], by rw [onClose_fst], ?_, ?_, ?_⟩
  · rw [onClose_snd]
    rw [List.filter_append, List.filter_append, filter_isRejected_rejectChunks]
    have hfp : (if st.pingTimer then [Effect.pingStopped] else []).filter
        Effect.isRejected = [] := by
      cases hp : st.pingTimer <;> simp [hp, Effect.isRejected]
    have hfs : (if st.autoReconnect = true ∧ st.disposed = false ∧ st.reconnectTimer = false
        then [Effect.reconnectScheduled
          (min (st.reconnectInitialDelayMs * st.reconnectBackoffFactor ^ st.reconnectAttempt)
            st.reconnectMaxDelayMs)]
        else []).filter Effect.isRejected = [] := by
      split <;> simp [Effect.isRejected]
    rw [hfp, hfs]
    simp
  · intro r hr ht
    rw [onClose_snd]
    refine List.mem_append_left _ (List.mem_append_right _ ?_)
    exact timerCancelled_mem_rejectChunks st.pendingRequests _ r hr ht
  · intro ha hd hrt
    constructor
    · rw [onClose_snd]
      refine List.mem_append_right _ ?_
      rw [if_pos ⟨ha, hd, hrt⟩]
      exact List.mem_singleton.mpr rfl
    · rw [onClose_fst]
      simp only
      rw [if_pos ⟨ha, hd, hrt⟩]

/-- C9 witness: on the open state with one pending call, closure rejects
exactly that call with the disconnect error, keeps the (empty) buffer, and
schedules the 250ms reconnect. -/
theorem C9_witness :
    (onClose exampleOpenState).2.filter Effect.isRejected =
      [Effect.rejected 1 TransportError.disconnectedBeforeResponse] ∧
    Effect.timerCancelled 1 ∈ (onClose exampleOpenState).2 ∧
    Effect.reconnectScheduled 250 ∈ (onClose exampleOpenState).2 := by
  have h := C9_theorem exampleOpenState
  exact ⟨h.2.2.2.2.2.1,
    h.2.2.2.2.2.2.1 examplePending (by decide) rfl,
    (h.2.2.2.2.2.2.2 rfl rfl rfl).1⟩

/-- One failed attempt under the scheduling conditions: the delay computed
from the current attempt counter is scheduled and the counter advances by
one. -/
theorem oneFailedAttempt_eq (st : TransportState) (hA : st.autoReconnect = true)
    (hD : st.disposed = false) (hT : st.reconnectTimer = false) :
    oneFailedAttempt st =
      ({ st with reconnectAttempt := st.reconnectAttempt + 1, reconnectTimer := false },
        some (min (st.reconnectInitialDelayMs *
            st.reconnectBackoffFactor ^ st.reconnectAttempt)
          st.reconnectMaxDelayMs)) := by
  unfold oneFailedAttempt scheduleReconnect
  simp [hA, hD, hT]

/-- Across `n` consecutive failed attempts, the `k`-th scheduled delay is
`min(initialDelay * backoffFactor ^ (attempt0 + k), maxDelay)`. -/
theorem failedAttemptDelays_formula (st : TransportState) (hA : st.autoReconnect = true)
    (hD : st.disposed = false) (hT : st.reconnectTimer = false) :
    ∀ n, failedAttemptDelays st n = (List.range n).map (fun k =>
      min (st.reconnectInitialDelayMs *
          st.reconnectBackoffFactor ^ (st.reconnectAttempt + k))
        st.reconnectMaxDelayMs) := by
  intro n
  induction n generalizing st with
  | zero => rfl
  | succ n ih =>
    rw [failedAttemptDelays, oneFailedAttempt_eq st hA hD hT]
    dsimp only
    rw [ih { st with reconnectAttempt := st.reconnectAttempt + 1, reconnectTimer := false }
      hA hD rfl]
    dsimp only
    rw [List.range_succ_eq_map, List.map_cons, List.map_map]
    refine congrArg (List.cons _) (List.map_congr_left ?_)
    intro k _
    dsimp only [Function.comp_apply]
    simp only [Nat.succ_eq_add_one]
    rw [show st.reconnectAttempt + 1 + k = st.reconnectAttempt + (k + 1) by omega]

/-- The default-options transport after six consecutive failed attempts
(about to schedule its seventh). -/
def exampleBackedOffState : TransportState :=
  { defaultOptionsState with reconnectAttempt := 6 }

/-- C2: with auto-reconnect enabled (and the transport not disposed, no
reconnect timer already pending), the delay before the k-th scheduled
reconnect across consecutive failed attempts is
`min(initialDelay * backoffFactor ^ (attempt0 + k), maxDelay)`, the attempt
counter advancing once per failed attempt; with the default configuration
(initialDelay 250, factor 2, max 5000) the sequence from a fresh counter is
250, 500, 1000, 2000, 4000, 5000, 5000, …; and a successful connection
resets the counter to 0, so the next delay after success is again 250. -/
theorem C2_theorem (st : TransportState) (hA : st.autoReconnect = true)
    (hD : st.disposed = false) (hT : st.reconnectTimer = false) :
    (∀ n, failedAttemptDelays st n = (List.range n).map (fun k =>
      min (st.reconnectInitialDelayMs *
          st.reconnectBackoffFactor ^ (st.reconnectAttempt + k))
        st.reconnectMaxDelayMs)) ∧
    failedAttemptDelays defaultOptionsState 8 =
      [250, 500, 1000, 2000, 4000, 5000, 5000, 5000] ∧
    (onOpen exampleBackedOffState).1.reconnectAttempt = 0 ∧
    failedAttemptDelays (onOpen exampleBackedOffState).1 1 = [250] := by
  exact ⟨failedAttemptDelays_formula st hA hD hT, by decide, by decide, by decide⟩

/-- C2 witness: the formula applied to the default transport already backed
off six times yields the capped 5000ms delay. -/
theorem C2_witness :
    failedAttemptDelays exampleBackedOffState 2 = [5000, 5000] := by
  rw [(C2_theorem exampleBackedOffState rfl rfl rfl).1 2]
  decide

/-- The effects of successfully writing one buffered call to the channel:
the envelope, then its timeout timer start. -/
def sendEffects (r : OutboundRequest) : List Effect :=
  [Effect.sent r.requestId r.url r.verb r.body,
   Effect.timerStarted r.requestId r.timeoutMs]

/-- The number of flush iterations executed before the channel availability
oracle first reports unavailable, out of `n` buffered calls starting at
iteration `k`. -/
def availCount (conn : Nat → Bool) : Nat → Nat → Nat
  | _, 0 => 0
  | k, n + 1 => if conn k then availCount conn (k + 1) n + 1 else 0

/-- When the oracle is always available, every buffered call is flushed. -/
theorem availCount_of_true (conn : Nat → Bool) (h : ∀ k, conn k = true) :
    ∀ k n, availCount conn k n = n := by
  intro k n
  induction n generalizing k with
  | zero => rfl
  | succ n ih => rw [availCount, h k, if_pos rfl, ih (k + 1)]

/-- The flush loop sends exactly the first `availCount` buffered calls, each
producing its envelope and timer effects in order, and pushes the remainder
back into the buffer. -/
theorem flushGo_spec (conn sendOk : Nat → Bool) (hsend : ∀ k, sendOk k = true) :
    ∀ (queue : List OutboundRequest) (k : Nat) (st : TransportState),
      st.queuedRequests = [] →
      (flushGo conn sendOk k queue st).1.queuedRequests =
        queue.drop (availCount conn k queue.length) ∧
      (flushGo conn sendOk k queue st).2 =
        ((queue.take (availCount conn k queue.length)).map sendEffects).flatten := by
  intro queue
  induction queue with
  | nil => intro k st hq; exact ⟨by simp [flushGo, availCount, hq], by simp [flushGo]⟩
  | cons next rest ih =>
    intro k st hq
    by_cases hc : conn k = true
    · have hs : sendRequest (conn k) (sendOk k) st next =
          ({ st with pendingRequests := mapSet st.pendingRequests { next with timerSet := true } }, sendEffects next) := by
        rw [hc, hsend k]
        rfl
      have hq1 : ({ st with pendingRequests := mapSet st.pendingRequests { next with timerSet := true } } : TransportState).queuedRequests = [] := hq
      have hrec := ih (k + 1) _ hq1
      constructor
      · show (flushGo conn sendOk k (next :: rest) st).1.queuedRequests = _
        rw [flushGo, if_pos hc, hs]
        rw [show (next :: rest).length = rest.length + 1 from rfl,
          availCount, hc, if_pos rfl, List.drop_succ_cons]
        exact hrec.1
      · show (flushGo conn sendOk k (next :: rest) st).2 = _
        rw [flushGo, if_pos hc, hs]
        rw [show (next :: rest).length = rest.length + 1 from rfl,
          availCount, hc, if_pos rfl, List.take_succ_cons]
        rw [List.map_cons, List.flatten_cons]
        exact congrArg (sendEffects next ++ ·) hrec.2
    · rw [flushGo, if_neg hc]
      rw [show (next :: rest).length = rest.length + 1 from rfl, availCount,
        if_neg hc]
      exact ⟨rfl, rfl⟩

/-- C4: flushing sends buffered calls in exactly their submission order —
the effect stream is the per-call envelope/timer pairs of the first
`availCount` entries of the buffer, in buffer order — and the calls not
flushed before the channel became unavailable remain buffered, in order,
as the buffer's suffix; in particular, on a successful connection
(`onOpen`, where the channel stays open for the whole synchronous flush)
every buffered call is sent in submission order and the buffer empties. -/
theorem C4_theorem (conn sendOk : Nat → Bool) (st : TransportState)
    (hsend : ∀ k, sendOk k = true) :
    (flushQueuedRequests conn sendOk st).1.queuedRequests =
      st.queuedRequests.drop (availCount conn 0 st.queuedRequests.length) ∧
    (flushQueuedRequests conn sendOk st).2 =
      ((st.queuedRequests.take (availCount conn 0 st.queuedRequests.length)).map
        sendEffects).flatten ∧
    (flushQueuedRequests (fun _ => true) (fun _ => true) st).1.queuedRequests = [] ∧
    (flushQueuedRequests (fun _ => true) (fun _ => true) st).2 =
      (st.queuedRequests.map sendEffects).flatten := by
  have h := flushGo_spec conn sendOk hsend st.queuedRequests 0
    { st with queuedRequests := [] } rfl
  have htrue := flushGo_spec (fun _ => true) (fun _ => true) (fun _ => rfl)
    st.queuedRequests 0 { st with queuedRequests := [] } rfl
  refine ⟨h.1, h.2, ?_, ?_⟩
  · show (flushGo (fun _ => true) (fun _ => true) 0 st.queuedRequests
      { st with queuedRequests := [] }).1.queuedRequests = []
    rw [htrue.1, availCount_of_true _ (fun _ => rfl), List.drop_length]
  · show (flushGo (fun _ => true) (fun _ => true) 0 st.queuedRequests
      { st with queuedRequests := [] }).2 = _
    rw [htrue.2, availCount_of_true _ (fun _ => rfl), List.take_length]

/-- C4 witness: flushing a two-call buffer over a channel that drops after
the first send writes call 1's envelope only and keeps call 2 buffered; over
a stable channel both are sent in order. -/
theorem C4_witness :
    (flushQueuedRequests (fun k => k == 0) (fun _ => true) exampleQueuedState).2 =
      [Effect.sent 1 "/remote/object/call" .PUT (some "a"), Effect.timerStarted 1 15000] ∧
    (flushQueuedRequests (fun k => k == 0) (fun _ => true)
      exampleQueuedState).1.queuedRequests = [exampleQueuedB] ∧
    (flushQueuedRequests (fun _ => true) (fun _ => true) exampleQueuedState).2 =
      [Effect.sent 1 "/remote/object/call" .PUT (some "a"), Effect.timerStarted 1 15000,
       Effect.sent 2 "/remote/info" .GET none, Effect.timerStarted 2 15000] := by
  have h := C4_theorem (fun k => k == 0) (fun _ => true) exampleQueuedState (fun _ => rfl)
  refine ⟨?_, ?_, ?_⟩
  · rw [h.2.1]; rfl
  · rw [h.1]; rfl
  · rw [h.2.2.2]; rfl

/-- Looking up a key after a `Map.set`: the freshly set entry when the key
matches, the previous content otherwise. -/
theorem respMapGet_set (acc : List BatchResponseItem) (r : BatchResponseItem) (id : Nat) :
    respMapGet (respMapSet acc r) id =
      if r.RequestId = id then some r else respMapGet acc id := by
  induction acc with
  | nil =>
    by_cases h : r.RequestId = id <;> simp [respMapSet, respMapGet, h]
  | cons x xs ih =>
    rw [respMapSet]
    by_cases hx : x.RequestId = r.RequestId
    · by_cases h : r.RequestId = id
      · rw [if_pos hx, if_pos h]
        simp [respMapGet, h]
      · rw [if_pos hx, if_neg h]
        have hxid : ¬ x.RequestId = id := fun hc => h (hx ▸ hc)
        simp [respMapGet, h, hxid]
    · rw [if_neg hx]
      by_cases hxid : x.RequestId = id
      · have h : ¬ r.RequestId = id := fun hc => hx (hxid ▸ hc.symm)
        simp [respMapGet, h, hxid]
      · simp only [respMapGet, List.find?_cons]
        rw [show (decide (x.RequestId = id)) = false from by simp [hxid]]
        exact ih

/-- Indexing a response array with distinct ids by repeated `Map.set` and
looking a key up agrees with scanning the array for the entry with that
key. -/
theorem respMapGet_foldl (resps : List BatchResponseItem) :
    ∀ acc id, (resps.map (fun r => r.RequestId)).Nodup →
    respMapGet (resps.foldl respMapSet acc) id =
      ((resps.find? (fun r => r.RequestId = id)).orElse
        (fun _ => respMapGet acc id)) := by
  induction resps with
  | nil => intro acc id _; simp [respMapGet]
  | cons r rest ih =>
    intro acc id hnodup
    have hnodup1 : (rest.map (fun r => r.RequestId)).Nodup :=
      (List.nodup_cons.mp hnodup).2
    have hnotin : r.RequestId ∉ rest.map (fun x => x.RequestId) :=
      (List.nodup_cons.mp hnodup).1
    rw [List.foldl_cons, ih (respMapSet acc r) id hnodup1, List.find?_cons]
    by_cases h : r.RequestId = id
    · have hrest : rest.find? (fun x => x.RequestId = id) = none := by
        rw [List.find?_eq_none]
        intro x hx
        simp only [decide_eq_true_eq]
        intro hxid
        exact hnotin (h ▸ hxid ▸ List.mem_map_of_mem (fun y => y.RequestId) hx)
      rw [hrest, show (decide (r.RequestId = id)) = true from by simp [h]]
      simp [Option.orElse, respMapGet_set, h]
    · rw [show (decide (r.RequestId = id)) = false from by simp [h]]
      cases hfind : rest.find? (fun x => x.RequestId = id) with
      | some x => simp [Option.orElse, hfind]
      | none => simp [Option.orElse, hfind, respMapGet_set, h]

/-- The request items a sequence of `add` calls produces, with sequential
ids starting at `start`. -/
def buildItems (start : Nat) : List BatchCall → List BatchRequestItem
  | [] => []
  | c :: cs =>
    { RequestId := start, URL := c.url, Verb := c.verb, Body := c.body } ::
      buildItems (start + 1) cs

/-- `addMany` appends the items built from the calls, with ids continuing
from the current length of the builder's request list. -/
theorem addMany_eq (calls : List BatchCall) :
    ∀ b : BatchBuilder,
      (b.addMany calls).requests = b.requests ++ buildItems b.requests.length calls := by
  induction calls with
  | nil => intro b; simp [BatchBuilder.addMany, buildItems]
  | cons c cs ih =>
    intro b
    show (BatchBuilder.addMany ⟨b.requests ++
      [{ RequestId := b.requests.length, URL := c.url, Verb := c.verb, Body := c.body }]⟩
        cs).requests = _
    rw [ih, buildItems]
    simp

/-- The ids of the built items are the consecutive integers from `start`. -/
theorem buildItems_map_id (calls : List BatchCall) :
    ∀ start, (buildItems start calls).map (fun r => r.RequestId) =
      List.range' start calls.length := by
  induction calls with
  | nil => intro start; rfl
  | cons c cs ih =>
    intro start
    rw [buildItems, List.map_cons, ih (start + 1), List.length_cons, List.range'_succ]

/-- The built items carry the calls' verb, url and body, in order. -/
theorem buildItems_map_payload (calls : List BatchCall) :
    ∀ start, (buildItems start calls).map
      (fun r => BatchCall.mk r.Verb r.URL r.Body) = calls := by
  induction calls with
  | nil => intro start; rfl
  | cons c cs ih => intro start; rw [buildItems, List.map_cons, ih (start + 1)]

/-- With distinct response ids, correlation is exactly: scan the response
array for the entry sharing each sub-request's id, defaulting to status 0
and an absent body. -/
theorem correlate_spec (requests : List BatchRequestItem)
    (responses : List BatchResponseItem)
    (hnodup : (responses.map (fun r => r.RequestId)).Nodup) :
    correlateBatchResponses requests (some responses) = requests.map (fun request =>
      match responses.find? (fun r => r.RequestId = request.RequestId) with
      | some matched =>
        { requestId := request.RequestId, statusCode := matched.ResponseCode,
          body := matched.ResponseBody, request := request }
      | none =>
        { requestId := request.RequestId, statusCode := 0, body := none,
          request := request }) := by
  unfold correlateBatchResponses
  refine List.map_congr_left ?_
  intro request _
  rw [show (some responses).getD [] = responses from rfl]
  rw [respMapGet_foldl responses [] request.RequestId hnodup]
  cases hfind : responses.find? (fun r => r.RequestId = request.RequestId) with
  | some matched => simp [Option.orElse]
  | none => simp [Option.orElse, respMapGet]

/-- C8: the batch builder assigns sequential ids 0, 1, 2, … in insertion
order — the outgoing request list's ids are exactly `range n` and its
entries carry the added calls' verb/url/body in order — and, for a server
response array with distinct ids in any order, correlation matches each
sub-request to the response entry sharing its id, yielding exactly one
result per sub-request in order: the matched entry's status and body, or
status 0 and an absent body for an unmatched sub-request. -/
theorem C8_theorem (calls : List BatchCall) (responses : List BatchResponseItem)
    (hnodup : (responses.map (fun r => r.RequestId)).Nodup) :
    (BatchBuilder.empty.addMany calls).requests.map (fun r => r.RequestId) =
      List.range calls.length ∧
    (BatchBuilder.empty.addMany calls).requests.map
      (fun r => BatchCall.mk r.Verb r.URL r.Body) = calls ∧
    ∀ requests : List BatchRequestItem,
      (correlateBatchResponses requests (some responses)).map
        (fun res => res.request) = requests ∧
      correlateBatchResponses requests (some responses) = requests.map (fun request =>
        match responses.find? (fun r => r.RequestId = request.RequestId) with
        | some matched =>
          { requestId := request.RequestId, statusCode := matched.ResponseCode,
            body := matched.ResponseBody, request := request }
        | none =>
          { requestId := request.RequestId, statusCode := 0, body := none,
            request := request }) := by
  refine ⟨?_, ?_, ?_⟩
  · rw [addMany_eq calls BatchBuilder.empty]
    rw [show BatchBuilder.empty.requests = [] from rfl, List.nil_append,
      List.length_nil]
    rw [buildItems_map_id calls 0, List.range_eq_range']
  · rw [addMany_eq calls BatchBuilder.empty]
    rw [show BatchBuilder.empty.requests = [] from rfl, List.nil_append,
      List.length_nil]
    exact buildItems_map_payload calls 0
  · intro requests
    constructor
    · rw [correlate_spec requests responses hnodup, List.map_map]
      refine (List.map_congr_left ?_).trans (List.map_id requests)
      intro request _
      dsimp only [Function.comp_apply]
      cases responses.find? (fun r => r.RequestId = request.RequestId) <;> rfl
    · exact correlate_spec requests responses hnodup

/-- C8 witness: a batch of two sub-calls against a server response holding
only id 1 yields two results in order — the default (status 0, absent body)
for sub-call 0 and the real status/body for sub-call 1. -/
theorem C8_witness :
    (BatchBuilder.empty.addMany
      [⟨.PUT, "/remote/object/call", some "a"⟩, ⟨.GET, "/remote/info", none⟩]).requests.map
        (fun r => r.RequestId) = [0, 1] ∧
    (correlateBatchResponses
      (BatchBuilder.empty.addMany
        [⟨.PUT, "/remote/object/call", some "a"⟩, ⟨.GET, "/remote/info", none⟩]).requests
      (some [{ RequestId := 1, ResponseCode := 200, ResponseBody := some "ok" }])).map
        (fun res => (res.requestId, res.statusCode, res.body)) =
      [(0, 0, none), (1, 200, some "ok")] := by
  have h := C8_theorem
    [⟨.PUT, "/remote/object/call", some "a"⟩, ⟨.GET, "/remote/info", none⟩]
    [{ RequestId := 1, ResponseCode := 200, ResponseBody := some "ok" }]
    (by decide)
  constructor
  · rw [h.1]; rfl
  · rw [(h.2.2 _).2]; rfl

end UnrealRC
